import Mathlib

/-
Verification of the rpi-ans-machine repository.

Shallow embedding of the audio player module (src/player.py), the recorder
and controller loop (src/main.py) and the announce-only controller variant
(src/happened_today.py).  Environment interaction (subprocesses, threads,
GPIO reads, backend liveness queries) is modelled by explicit inputs: each
external query outcome is a field of the corresponding state value, and the
side effects a call performs (spawn, terminate, wait, kill, ...) are
returned as an explicit action list.
-/

set_option linter.unusedVariables false

/- ------------------------------------------------------------------ -/
/- player.py : playback registry and stop_audio                        -/
/- ------------------------------------------------------------------ -/

/-- Backend identifier stored in the registry (`_PLAYBACK_HANDLES` holds
`(backend, handle)` pairs).  `other` stands for any string outside the five
recognised by `_is_handle_active` / `stop_audio` (the code's `else` arms). -/
inductive Backend
  | omxplayer | aplay | system | simpleaudio | pygame | other
deriving DecidableEq, Repr

/-- Outcome of one raw liveness query on a handle (`poll() is None`,
`is_playing()`, `get_busy()`): the handle reports active, reports inactive,
or the query raises. -/
inductive QRes
  | active | inactive | throws
deriving DecidableEq, Repr

/-- One registered playback handle together with the behaviour its backend
object exhibits during a `stop_audio` run: `q1` is the first liveness query
(player.py line 93), `termThrows` whether `terminate()`/`stop()` raises,
`waitTimesOut` whether `wait(timeout=1)` raises `TimeoutExpired`, and `q2`
the liveness re-query in the `finally` clause (line 113). -/
structure Handle where
  id : Nat
  backend : Backend
  q1 : QRes
  termThrows : Bool
  waitTimesOut : Bool
  q2 : QRes
deriving DecidableEq, Repr

/-- Side effects performed on playback handles by `stop_audio`. -/
inductive PAct
  | terminate (id : Nat)
  | wait (id : Nat)
  | kill (id : Nat)
  | stopCall (id : Nat)
deriving DecidableEq, Repr

/-- player.py `_is_handle_active(backend, handle)` where `q` is the outcome
of the raw query on the handle.  Unknown backends fall through every branch
to the final `return False`; a raising query is caught by the local
`except Exception: return False`. -/
def _is_handle_active (b : Backend) (q : QRes) : Bool :=
  match b, q with
  | Backend.other, _ => false
  | _, QRes.active => true
  | _, QRes.inactive => false
  | _, QRes.throws => false

/-- Process-style backends, player.py line 97: `{"omxplayer", "aplay", "system"}`. -/
def procBackend : Backend → Bool
  | Backend.omxplayer | Backend.aplay | Backend.system => true
  | _ => false

/-- Actions the `stop_audio` loop body performs for one handle
(player.py lines 93-107).  An inactive handle is removed without further
calls; a process backend gets `terminate()` then `wait(timeout=1)` (the
`wait` call is skipped when `terminate` raised); `simpleaudio`/`pygame`
get `stop()`; other backends hit the `else: continue`.  No branch ever
calls `kill()`. -/
def handleStopActs (h : Handle) : List PAct :=
  if _is_handle_active h.backend h.q1 = false then []
  else
    match h.backend with
    | Backend.omxplayer | Backend.aplay | Backend.system =>
      if h.termThrows then [PAct.terminate h.id]
      else [PAct.terminate h.id, PAct.wait h.id]
    | Backend.simpleaudio | Backend.pygame => [PAct.stopCall h.id]
    | Backend.other => []

/-- Whether the loop body reaches `stopped_any = True` for this handle
(player.py line 107): only when the handle was active and neither the
terminate/stop call nor the bounded wait raised. -/
def handleStopped (h : Handle) : Bool :=
  _is_handle_active h.backend h.q1 &&
    (match h.backend with
     | Backend.omxplayer | Backend.aplay | Backend.system =>
       !h.termThrows && !h.waitTimesOut
     | Backend.simpleaudio | Backend.pygame => !h.termThrows
     | Backend.other => false)

/-- Whether the handle survives in the registry: it must report active both
at the initial check (line 93) and at the `finally` re-check (line 113). -/
def handleRemains (h : Handle) : Bool :=
  _is_handle_active h.backend h.q1 && _is_handle_active h.backend h.q2

/-- The `for backend, handle in _PLAYBACK_HANDLES[:]` loop of `stop_audio`:
iterates over a copy while `list.remove` mutates the live registry `reg`.
An inactive handle is removed at once (line 94) and the `finally` clause
may remove again (the `ValueError` of a missing element is swallowed,
line 117); an active handle is terminated/stopped and removed in the
`finally` clause when it no longer reports active. -/
def stopAudioLoop : List Handle → List Handle → Bool → List PAct →
    Bool × List Handle × List PAct
  | [], reg, stoppedAny, acts => (stoppedAny, reg, acts)
  | h :: rest, reg, stoppedAny, acts =>
    let reg1 := if _is_handle_active h.backend h.q1 then reg else reg.erase h
    let reg2 := if _is_handle_active h.backend h.q2 then reg1 else reg1.erase h
    stopAudioLoop rest reg2 (stoppedAny || handleStopped h) (acts ++ handleStopActs h)

/-- player.py `stop_audio()`: returns `(stopped_any, final registry, actions)`. -/
def stop_audio (reg : List Handle) : Bool × List Handle × List PAct :=
  stopAudioLoop reg reg false []

/- ------------------------------------------------------------------ -/
/- main.py : Recorder                                                  -/
/- ------------------------------------------------------------------ -/

/-- A capture subprocess: its pid and whether `poll() is None` (alive). -/
structure Proc where
  pid : Nat
  alive : Bool
deriving DecidableEq, Repr

/-- State of main.py's `Recorder`: the subprocess reference, the
destination file (abstracted to the timestamp used in its name) and the
start timestamp; all `None` initially and after `stop()`. -/
structure Recorder where
  proc : Option Proc
  file : Option Nat
  startTime : Option Nat
deriving DecidableEq, Repr

/-- Recorder side effects. -/
inductive RecAct
  | spawn (pid : Nat)
  | terminate (pid : Nat)
  | kill (pid : Nat)
deriving DecidableEq, Repr

/-- Whether a recording session is active (a subprocess reference is held). -/
def sessionActive (s : Recorder) : Bool :=
  s.proc.isSome

/-- main.py `Recorder.start` (lines 95-102): makes the recording directory,
builds a timestamped destination file, launches the capture subprocess with
`start_new_session=True` and records the start time.  There is no check of
the current session: `self.proc`, `self.file` and `self.start_time` are
overwritten wholesale. -/
def Recorder.start (s : Recorder) (now : Nat) (newPid : Nat) :
    Recorder × List RecAct :=
  (⟨some ⟨newPid, true⟩, some now, some now⟩, [RecAct.spawn newPid])

/-- Guard of main.py `Recorder.stop` line 106:
`self.proc and self.proc.poll() is None and (time.time() - self.start_time) > 1`.
`start_time` is always set together with `proc` (see `Recorder.start`), so
the mismatched case is unreachable and modelled as a false guard. -/
def recStopGuard (s : Recorder) (now : Nat) : Bool :=
  match s.proc, s.startTime with
  | some p, some t0 => p.alive && decide (now - t0 > 1)
  | _, _ => false

/-- main.py `Recorder.stop` (lines 105-118): when the guard holds it
terminates the subprocess, waits up to 2 s and kills on `TimeoutExpired`
(`waitTimesOut` models that timeout); in every case the three session
fields are then reset to `None`. -/
def Recorder.stop (s : Recorder) (now : Nat) (waitTimesOut : Bool) :
    Recorder × List RecAct :=
  let acts :=
    if recStopGuard s now then
      match s.proc with
      | some p =>
        RecAct.terminate p.pid :: (if waitTimesOut then [RecAct.kill p.pid] else [])
      | none => []
    else []
  (⟨none, none, none⟩, acts)

/-- main.py `finally:` block (lines 178-182): the shutdown path runs
`stop_audio()` then `recorder.stop()` (then `GPIO.cleanup()`). -/
def shutdownCleanup (reg : List Handle) (rs : Recorder) (now : Nat)
    (waitTimesOut : Bool) :
    (Bool × List Handle × List PAct) × (Recorder × List RecAct) :=
  (stop_audio reg, Recorder.stop rs now waitTimesOut)

/- ------------------------------------------------------------------ -/
/- main.py / happened_today.py : controller state machine              -/
/- ------------------------------------------------------------------ -/

/-- Controller states of main.py `main()` (the string variable `state`). -/
inductive CState
  | idle | playing | recording
deriving DecidableEq, Repr, Fintype

/-- Actions issued by one controller tick. -/
inductive CAct
  | playMessage | stopAudio | recStart | recStop
deriving DecidableEq, Repr

/-- `falling_edge = last_level == 1 and level == 0` (main.py line 144). -/
def fallingEdge (last level : Bool) : Bool :=
  last && !level

/-- `rising_edge = last_level == 0 and level == 1` (main.py line 145). -/
def risingEdge (last level : Bool) : Bool :=
  !last && level

/-- Loop state of main.py `main()`: the state string, `last_level`, and
whether `message_thread` has been set (it starts as `None` and is assigned
on the IDLE -> PLAY_MESSAGE transition, never reset). -/
structure LoopState where
  cstate : CState
  lastLevel : Bool
  msgThread : Bool
deriving DecidableEq, Repr, Fintype

/-- One iteration of main.py's `while True` body (lines 141-173), given the
freshly read pin `level` and whether the message thread `is_alive()`:
IDLE + rising edge starts playback; PLAY_MESSAGE checks the falling edge
first and only otherwise the completion of the message thread; RECORDING +
falling edge stops the recorder; `last_level` is updated at the end. -/
def tick (s : LoopState) (level threadAlive : Bool) : LoopState × List CAct :=
  let falling := fallingEdge s.lastLevel level
  let rising := risingEdge s.lastLevel level
  if s.cstate = CState.idle ∧ rising = true then
    (⟨CState.playing, level, true⟩, [CAct.playMessage])
  else if s.cstate = CState.playing then
    if falling = true then
      (⟨CState.idle, level, s.msgThread⟩, [CAct.stopAudio])
    else if s.msgThread = true ∧ threadAlive = false then
      (⟨CState.recording, level, s.msgThread⟩, [CAct.recStart])
    else
      (⟨s.cstate, level, s.msgThread⟩, [])
  else if s.cstate = CState.recording ∧ falling = true then
    (⟨CState.idle, level, s.msgThread⟩, [CAct.recStop])
  else
    (⟨s.cstate, level, s.msgThread⟩, [])

/-- One iteration of happened_today.py's loop body (lines 91-113), the
announce-only variant: IDLE + rising edge sleeps 0.5 s (settle delay) and
starts a random event playback; PLAY_MESSAGE + falling edge aborts via
`stop_audio()`; there is no recording phase and no completion check. -/
def tickAnnounce (s : LoopState) (level : Bool) : LoopState × List CAct :=
  let falling := fallingEdge s.lastLevel level
  let rising := risingEdge s.lastLevel level
  if s.cstate = CState.idle ∧ rising = true then
    (⟨CState.playing, level, true⟩, [CAct.playMessage])
  else if s.cstate = CState.playing ∧ falling = true then
    (⟨CState.idle, level, s.msgThread⟩, [CAct.stopAudio])
  else
    (⟨s.cstate, level, s.msgThread⟩, [])

/-- Initial loop state: `state = "IDLE"`, `last_level` from the first GPIO
read, `message_thread = None` (main.py lines 134-137). -/
def initState (initLevel : Bool) : LoopState :=
  ⟨CState.idle, initLevel, false⟩

/-- Run the main.py loop over a list of per-tick inputs
`(level, threadAlive)`. -/
def runLoop : LoopState → List (Bool × Bool) → LoopState
  | s, [] => s
  | s, p :: rest => runLoop (tick s p.1 p.2).1 rest

/- ------------------------------------------------------------------ -/
/- player.py : backend strategies and play_audio                       -/
/- ------------------------------------------------------------------ -/

/-- Environment one backend strategy sees: `available` is the
`shutil.which(...)` probe (or the `import` for the pure-python backends);
`attemptOk` whether the playback attempt itself runs without raising
(`subprocess.run(check=True)` / `Popen` / decoder calls). -/
structure StratEnv where
  available : Bool
  attemptOk : Bool
deriving DecidableEq, Repr

/-- One entry of the `_OTHER_CMDS` platform list used by
`_play_with_system_command`: `powershell` is exempt from the `which`
probe (player.py line 289). -/
structure SysCmd where
  isPowershell : Bool
  available : Bool
  attemptOk : Bool
deriving DecidableEq, Repr

/-- Whole environment of one `play_audio` call: Raspberry Pi detection and
the per-backend strategy environments, plus the platform command list of
the generic system-command fallback. -/
structure Env where
  isPi : Bool
  omxplayer : StratEnv
  aplay : StratEnv
  simpleaudio : StratEnv
  pygame : StratEnv
  playsound : StratEnv
  sysCmds : List SysCmd
deriving DecidableEq, Repr

/-- player.py `_play_with_omxplayer` (lines 140-162): refuse when the
binary is missing; blocking runs `subprocess.run` to completion and
registers nothing; non-blocking spawns a `Popen` and registers the handle
before returning `True`; any raise is caught and turned into `False`
(nothing registered, since the raise happens before the registration).
Returns `(success, handles appended to the registry)`. -/
def _play_with_omxplayer (e : StratEnv) (blocking : Bool) : Bool × List Backend :=
  if !e.available then (false, [])
  else if blocking then
    if e.attemptOk then (true, []) else (false, [])
  else
    if e.attemptOk then (true, [Backend.omxplayer]) else (false, [])

/-- player.py `_play_with_aplay` (lines 168-188): same shape as omxplayer. -/
def _play_with_aplay (e : StratEnv) (blocking : Bool) : Bool × List Backend :=
  if !e.available then (false, [])
  else if blocking then
    if e.attemptOk then (true, []) else (false, [])
  else
    if e.attemptOk then (true, [Backend.aplay]) else (false, [])

/-- player.py `_play_with_simpleaudio` (lines 194-209): refusal is a failed
`import`; blocking waits with `wait_done()`; non-blocking registers the
play object. -/
def _play_with_simpleaudio (e : StratEnv) (blocking : Bool) : Bool × List Backend :=
  if !e.available then (false, [])
  else if blocking then
    if e.attemptOk then (true, []) else (false, [])
  else
    if e.attemptOk then (true, [Backend.simpleaudio]) else (false, [])

/-- player.py `_play_with_pygame` (lines 215-233): refusal is a failed
`import`; blocking busy-waits on the channel; non-blocking registers the
channel. -/
def _play_with_pygame (e : StratEnv) (blocking : Bool) : Bool × List Backend :=
  if !e.available then (false, [])
  else if blocking then
    if e.attemptOk then (true, []) else (false, [])
  else
    if e.attemptOk then (true, [Backend.pygame]) else (false, [])

/-- player.py `_play_with_playsound` (lines 239-255): refusal is a failed
`import`; blocking calls `playsound(file_path)` directly; non-blocking
starts a daemon thread and returns `True` WITHOUT registering anything
(source comment: "playsound offers no stop mechanism, so we cannot
register it"). -/
def _play_with_playsound (e : StratEnv) (blocking : Bool) : Bool × List Backend :=
  if !e.available then (false, [])
  else if blocking then
    if e.attemptOk then (true, []) else (false, [])
  else
    if e.attemptOk then (true, []) else (false, [])

/-- player.py `_play_with_system_command` (lines 286-307): walks the
platform command list; a non-powershell command missing from PATH is
skipped; a raising attempt advances to the next command; a succeeding
non-blocking `Popen` is registered as backend "system".  (The
`full_cmd is None` guard of the source is dead code: `_build_system_command`
returns a list in every branch.) -/
def _play_with_system_command : List SysCmd → Bool → Bool × List Backend
  | [], _ => (false, [])
  | c :: rest, blocking =>
    if !c.isPowershell && !c.available then
      _play_with_system_command rest blocking
    else if blocking then
      if c.attemptOk then (true, []) else _play_with_system_command rest blocking
    else
      if c.attemptOk then (true, [Backend.system])
      else _play_with_system_command rest blocking

/-- Names of the six strategies of `play_audio`, in source order. -/
inductive StratId
  | omxplayer | aplay | simpleaudio | pygame | playsound | system
deriving DecidableEq, Repr

/-- The strategy list built by `play_audio` (player.py lines 338-350):
the two Pi-specific backends are prepended only when `_is_raspberry_pi()`. -/
def strategyOrder (isPi : Bool) : List StratId :=
  (if isPi then [StratId.omxplayer, StratId.aplay] else []) ++
    [StratId.simpleaudio, StratId.pygame, StratId.playsound, StratId.system]

/-- Dispatch one strategy on its environment. -/
def runStrategy (e : Env) (s : StratId) (blocking : Bool) : Bool × List Backend :=
  match s with
  | StratId.omxplayer => _play_with_omxplayer e.omxplayer blocking
  | StratId.aplay => _play_with_aplay e.aplay blocking
  | StratId.simpleaudio => _play_with_simpleaudio e.simpleaudio blocking
  | StratId.pygame => _play_with_pygame e.pygame blocking
  | StratId.playsound => _play_with_playsound e.playsound blocking
  | StratId.system => _play_with_system_command e.sysCmds blocking

/-- Whether a strategy invocation returns `True`. -/
def stratSucceeds (e : Env) (blocking : Bool) (s : StratId) : Bool :=
  (runStrategy e s blocking).1

/-- Whether a strategy would refuse outright: the probe / import fails
(for the system fallback: no command of the platform list is usable). -/
def stratAvailable (e : Env) : StratId → Bool
  | StratId.omxplayer => e.omxplayer.available
  | StratId.aplay => e.aplay.available
  | StratId.simpleaudio => e.simpleaudio.available
  | StratId.pygame => e.pygame.available
  | StratId.playsound => e.playsound.available
  | StratId.system => e.sysCmds.any (fun c => c.isPowershell || c.available)

/-- The `for strategy in strategies` loop of `play_audio` (lines 352-355):
first success wins and later strategies are never invoked; the handles each
invocation registered accumulate in the process-wide registry. -/
def tryStrategies (e : Env) (blocking : Bool) : List StratId → Bool × List Backend
  | [] => (false, [])
  | s :: rest =>
    let r := runStrategy e s blocking
    if r.1 then (true, r.2)
    else
      let r2 := tryStrategies e blocking rest
      (r2.1, r.2 ++ r2.2)

/-- Error raised by `play_audio`. -/
inductive PlayErr
  | fileNotFound
deriving DecidableEq, Repr

/-- player.py `play_audio(path, blocking)` (lines 313-355): raises
`FileNotFoundError` when the resolved path is not a file, otherwise tries
the strategies in order and returns `True` on the first success, `False`
when all fail.  `isFile` abstracts `Path(file_path).is_file()`; the second
component of the `ok` payload is the list of handles the call registered. -/
def play_audio (isFile : Bool) (e : Env) (blocking : Bool) :
    Except PlayErr (Bool × List Backend) :=
  if !isFile then Except.error PlayErr.fileNotFound
  else Except.ok (tryStrategies e blocking (strategyOrder e.isPi))

/-- main.py `_play_message` (lines 67-81), projected to the handles that end
up in the playback registry.  Both paths run `play_audio` with
`blocking=True`: the blocking path calls it directly, the non-blocking path
starts a daemon thread whose target is `play_audio` with
`kwargs={"blocking": True}` — so in either case the registry only gains
what a BLOCKING `play_audio` registers. -/
def _play_message_registered (isFile : Bool) (e : Env) (blocking : Bool) :
    List Backend :=
  match play_audio isFile e true with
  | Except.error _ => []
  | Except.ok r => r.2

/-- Whether a player action is a `kill()` call. -/
def isKillAct : PAct → Bool
  | PAct.kill _ => true
  | _ => false

/-- Registry tag under which each strategy registers its handle
(the first argument of its `_register_playback` call).  `playsound`
registers nothing, so its value is never used. -/
def backendOf : StratId → Backend
  | StratId.omxplayer => Backend.omxplayer
  | StratId.aplay => Backend.aplay
  | StratId.simpleaudio => Backend.simpleaudio
  | StratId.pygame => Backend.pygame
  | StratId.playsound => Backend.other
  | StratId.system => Backend.system

/- Concrete inputs used by the witness and counterexample theorems. -/

/-- An active omxplayer handle whose process ignores `terminate()`:
`wait(timeout=1)` raises `TimeoutExpired` and the handle stays alive. -/
def hTimeout : Handle :=
  ⟨0, Backend.omxplayer, QRes.active, false, true, QRes.active⟩

/-- An active aplay handle that terminates cleanly within the wait. -/
def hStopped : Handle :=
  ⟨1, Backend.aplay, QRes.active, false, false, QRes.inactive⟩

/-- A pygame handle that already finished before `stop_audio` ran. -/
def hVanished : Handle :=
  ⟨2, Backend.pygame, QRes.inactive, false, false, QRes.inactive⟩

/-- An active simpleaudio handle whose `stop()` call raises. -/
def hThrower : Handle :=
  ⟨3, Backend.simpleaudio, QRes.active, true, false, QRes.active⟩

/-- A recorder with an active session started at `t = 0` (pid 1). -/
def recActive : Recorder := ⟨some ⟨1, true⟩, some 0, some 0⟩

/-- A recorder with an active session started at `t = 0` (pid 3). -/
def recActive4 : Recorder := ⟨some ⟨3, true⟩, some 0, some 0⟩

/-- A recorder whose session (pid 3) started less than the minimum
duration ago when observed at `now = 1`. -/
def recYoung4 : Recorder := ⟨some ⟨3, true⟩, some 0, some 0⟩

/-- A recorder whose session (pid 7) started at `t = 0`, observed at the
shutdown instant `now = 1`, i.e. before the minimum duration elapsed. -/
def recYoung : Recorder := ⟨some ⟨7, true⟩, some 0, some 0⟩

/-- Environment in which every backend is installed and works. -/
def envAll : Env :=
  ⟨true, ⟨true, true⟩, ⟨true, true⟩, ⟨true, true⟩, ⟨true, true⟩, ⟨true, true⟩,
    [⟨false, true, true⟩]⟩

/-- Environment with omxplayer not installed, aplay working, simpleaudio
raising on its attempt, pygame missing, playsound working and no usable
system command. -/
def envMixed : Env :=
  ⟨true, ⟨false, true⟩, ⟨true, true⟩, ⟨true, false⟩, ⟨false, false⟩,
    ⟨true, true⟩, []⟩

/- ------------------------------------------------------------------ -/
/- Helper lemmas                                                       -/
/- ------------------------------------------------------------------ -/

lemma stopLoop_fst (copy : List Handle) : ∀ (reg : List Handle) (sa : Bool)
    (acts : List PAct),
    (stopAudioLoop copy reg sa acts).1 = (sa || copy.any handleStopped) := by
  induction copy with
  | nil => intro reg sa acts; simp [stopAudioLoop]
  | cons h t ih =>
    intro reg sa acts
    rw [stopAudioLoop]
    simp [ih, List.any_cons, Bool.or_assoc]

lemma stopLoop_acts (copy : List Handle) : ∀ (reg : List Handle) (sa : Bool)
    (acts : List PAct),
    (stopAudioLoop copy reg sa acts).2.2 = acts ++ copy.flatMap handleStopActs := by
  induction copy with
  | nil => intro reg sa acts; simp [stopAudioLoop]
  | cons h t ih =>
    intro reg sa acts
    rw [stopAudioLoop]
    simp [ih, List.flatMap_cons, List.append_assoc]

lemma stopStep_reg (reg : List Handle) (h : Handle) (hd : reg.Nodup) :
    (if _is_handle_active h.backend h.q2 then
       (if _is_handle_active h.backend h.q1 then reg else reg.erase h)
     else
       (if _is_handle_active h.backend h.q1 then reg else reg.erase h).erase h) =
    (if handleRemains h then reg else reg.erase h) := by
  unfold handleRemains
  cases hA : _is_handle_active h.backend h.q1 <;>
    cases hB : _is_handle_active h.backend h.q2 <;> simp [hA, hB]
  first
  | exact List.erase_of_not_mem (fun hm => ((hd.mem_erase_iff).1 hm).1 rfl)
  | exact fun hm => ((hd.mem_erase_iff).1 hm).1 rfl

lemma stopLoop_reg (copy : List Handle) : ∀ (reg : List Handle) (sa : Bool)
    (acts : List PAct), reg.Nodup →
    (stopAudioLoop copy reg sa acts).2.1 =
      reg.filter (fun x => !decide (x ∈ copy) || handleRemains x) := by
  induction copy with
  | nil =>
    intro reg sa acts hd
    rw [stopAudioLoop]
    simp
  | cons h t ih =>
    intro reg sa acts hd
    rw [stopAudioLoop]
    show (stopAudioLoop t
        (if _is_handle_active h.backend h.q2 then
           (if _is_handle_active h.backend h.q1 then reg else reg.erase h)
         else
           (if _is_handle_active h.backend h.q1 then reg else reg.erase h).erase h)
        (sa || handleStopped h) (acts ++ handleStopActs h)).2.1 = _
    rw [stopStep_reg reg h hd]
    by_cases hr : handleRemains h = true
    · rw [if_pos hr, ih reg (sa || handleStopped h) (acts ++ handleStopActs h) hd]
      apply List.filter_congr
      intro x hx
      by_cases hxh : x = h
      · subst hxh; simp [hr]
      · simp [List.mem_cons, hxh]
    · have hrf : handleRemains h = false := by simpa using hr
      rw [if_neg hr,
        ih (reg.erase h) (sa || handleStopped h) (acts ++ handleStopActs h) (hd.erase h),
        List.Nodup.erase_eq_filter hd, List.filter_filter]
      apply List.filter_congr
      intro x hx
      by_cases hxh : x = h
      · subst hxh; simp [hrf]
      · simp [List.mem_cons, hxh]

lemma stop_audio_fst (reg : List Handle) :
    (stop_audio reg).1 = reg.any handleStopped := by
  rw [stop_audio, stopLoop_fst]
  simp

lemma stop_audio_acts (reg : List Handle) :
    (stop_audio reg).2.2 = reg.flatMap handleStopActs := by
  rw [stop_audio, stopLoop_acts]
  simp

lemma stop_audio_reg (reg : List Handle) (hd : reg.Nodup) :
    (stop_audio reg).2.1 = reg.filter handleRemains := by
  rw [stop_audio, stopLoop_reg reg reg false [] hd]
  apply List.filter_congr
  intro x hx
  simp [hx]

lemma tick_preserves_playing_inv : ∀ (s : LoopState) (lv al : Bool),
    (s.cstate = CState.playing → s.lastLevel = true) →
    ((tick s lv al).1.cstate = CState.playing → (tick s lv al).1.lastLevel = true) := by
  decide

lemma runLoop_playing_inv : ∀ (inputs : List (Bool × Bool)) (s : LoopState),
    (s.cstate = CState.playing → s.lastLevel = true) →
    ((runLoop s inputs).cstate = CState.playing →
      (runLoop s inputs).lastLevel = true) := by
  intro inputs
  induction inputs with
  | nil => intro s h; exact h
  | cons p rest ih =>
    intro s h
    exact ih (tick s p.1 p.2).1 (tick_preserves_playing_inv s p.1 p.2 h)

lemma tick_recording_entry : ∀ (s : LoopState) (lv al : Bool),
    (s.cstate = CState.playing → s.lastLevel = true) →
    (tick s lv al).1.cstate = CState.recording →
    s.cstate = CState.recording ∨ (lv = true ∧ al = false) := by
  decide

lemma tick_hangup_wins : ∀ (s : LoopState) (lv al : Bool),
    s.cstate = CState.playing → fallingEdge s.lastLevel lv = true →
    tick s lv al = (⟨CState.idle, lv, s.msgThread⟩, [CAct.stopAudio]) := by
  decide

lemma omx_blocking_nil (se : StratEnv) : (_play_with_omxplayer se true).2 = [] := by
  cases hA : se.available <;> cases hK : se.attemptOk <;>
    simp [_play_with_omxplayer, hA, hK]

lemma aplay_blocking_nil (se : StratEnv) : (_play_with_aplay se true).2 = [] := by
  cases hA : se.available <;> cases hK : se.attemptOk <;>
    simp [_play_with_aplay, hA, hK]

lemma simpleaudio_blocking_nil (se : StratEnv) :
    (_play_with_simpleaudio se true).2 = [] := by
  cases hA : se.available <;> cases hK : se.attemptOk <;>
    simp [_play_with_simpleaudio, hA, hK]

lemma pygame_blocking_nil (se : StratEnv) : (_play_with_pygame se true).2 = [] := by
  cases hA : se.available <;> cases hK : se.attemptOk <;>
    simp [_play_with_pygame, hA, hK]

lemma playsound_nil (se : StratEnv) (b : Bool) :
    (_play_with_playsound se b).2 = [] := by
  cases hA : se.available <;> cases hK : se.attemptOk <;> cases b <;>
    simp [_play_with_playsound, hA, hK]

lemma system_blocking_nil : ∀ (cmds : List SysCmd),
    (_play_with_system_command cmds true).2 = [] := by
  intro cmds
  induction cmds with
  | nil => rfl
  | cons c rest ih =>
    by_cases h1 : (!c.isPowershell && !c.available) = true
    · simpa [_play_with_system_command, h1] using ih
    · by_cases h2 : c.attemptOk = true <;>
        simp [_play_with_system_command, h1, h2, ih]

lemma runStrategy_blocking_nil (e : Env) (s : StratId) :
    (runStrategy e s true).2 = [] := by
  cases s <;>
    first
    | exact omx_blocking_nil e.omxplayer
    | exact aplay_blocking_nil e.aplay
    | exact simpleaudio_blocking_nil e.simpleaudio
    | exact pygame_blocking_nil e.pygame
    | exact playsound_nil e.playsound true
    | exact system_blocking_nil e.sysCmds

lemma omx_failed_nil (se : StratEnv) (b : Bool) :
    (_play_with_omxplayer se b).1 = false → (_play_with_omxplayer se b).2 = [] := by
  cases hA : se.available <;> cases hK : se.attemptOk <;> cases b <;>
    simp [_play_with_omxplayer, hA, hK]

lemma aplay_failed_nil (se : StratEnv) (b : Bool) :
    (_play_with_aplay se b).1 = false → (_play_with_aplay se b).2 = [] := by
  cases hA : se.available <;> cases hK : se.attemptOk <;> cases b <;>
    simp [_play_with_aplay, hA, hK]

lemma simpleaudio_failed_nil (se : StratEnv) (b : Bool) :
    (_play_with_simpleaudio se b).1 = false →
    (_play_with_simpleaudio se b).2 = [] := by
  cases hA : se.available <;> cases hK : se.attemptOk <;> cases b <;>
    simp [_play_with_simpleaudio, hA, hK]

lemma pygame_failed_nil (se : StratEnv) (b : Bool) :
    (_play_with_pygame se b).1 = false → (_play_with_pygame se b).2 = [] := by
  cases hA : se.available <;> cases hK : se.attemptOk <;> cases b <;>
    simp [_play_with_pygame, hA, hK]

lemma system_failed_nil : ∀ (cmds : List SysCmd) (b : Bool),
    (_play_with_system_command cmds b).1 = false →
    (_play_with_system_command cmds b).2 = [] := by
  intro cmds
  induction cmds with
  | nil => intro b _; rfl
  | cons c rest ih =>
    intro b hf
    rw [_play_with_system_command] at hf ⊢
    by_cases h1 : (!c.isPowershell && !c.available) = true <;>
      by_cases h2 : c.attemptOk = true <;> cases b <;>
      simp [h1, h2] at hf ⊢ <;>
      try exact ih _ hf

lemma runStrategy_failed_nil (e : Env) (s : StratId) (b : Bool) :
    (runStrategy e s b).1 = false → (runStrategy e s b).2 = [] := by
  cases s <;>
    first
    | exact omx_failed_nil e.omxplayer b
    | exact aplay_failed_nil e.aplay b
    | exact simpleaudio_failed_nil e.simpleaudio b
    | exact pygame_failed_nil e.pygame b
    | exact (fun _ => playsound_nil e.playsound b)
    | exact system_failed_nil e.sysCmds b

lemma tryStrategies_blocking_nil (e : Env) : ∀ (l : List StratId),
    (tryStrategies e true l).2 = [] := by
  intro l
  induction l with
  | nil => rfl
  | cons s rest ih =>
    rw [tryStrategies]
    by_cases hs : (runStrategy e s true).1 = true
    · simp [hs, runStrategy_blocking_nil]
    · simp [hs, runStrategy_blocking_nil, ih]

lemma tryStrategies_fst_false_iff (e : Env) (b : Bool) : ∀ (l : List StratId),
    ((tryStrategies e b l).1 = false ↔ ∀ x ∈ l, stratSucceeds e b x = false) := by
  intro l
  induction l with
  | nil => simp [tryStrategies]
  | cons s rest ih =>
    rw [tryStrategies]
    by_cases hs : (runStrategy e s b).1 = true
    · simp [hs, stratSucceeds]
    · have hsf : (runStrategy e s b).1 = false := by simpa using hs
      simp [hs, stratSucceeds, ih, hsf]

lemma tryStrategies_first_success (e : Env) (b : Bool) :
    ∀ (pre : List StratId) (s : StratId) (post : List StratId),
    (∀ x ∈ pre, stratSucceeds e b x = false) →
    stratSucceeds e b s = true →
    tryStrategies e b (pre ++ s :: post) = (true, (runStrategy e s b).2) := by
  intro pre
  induction pre with
  | nil =>
    intro s post _ hs
    rw [List.nil_append, tryStrategies]
    simp only [stratSucceeds] at hs
    simp [hs]
  | cons x rest ih =>
    intro s post hpre hs
    rw [List.cons_append, tryStrategies]
    have hx : (runStrategy e x b).1 = false := hpre x (List.mem_cons_self x rest)
    simp [hx, runStrategy_failed_nil e x b hx,
      ih s post (fun y hy => hpre y (List.mem_cons_of_mem x hy)) hs]

lemma omx_nonblocking_reg (se : StratEnv) :
    (_play_with_omxplayer se false).1 = true →
    (_play_with_omxplayer se false).2 = [Backend.omxplayer] := by
  cases hA : se.available <;> cases hK : se.attemptOk <;>
    simp [_play_with_omxplayer, hA, hK]

lemma aplay_nonblocking_reg (se : StratEnv) :
    (_play_with_aplay se false).1 = true →
    (_play_with_aplay se false).2 = [Backend.aplay] := by
  cases hA : se.available <;> cases hK : se.attemptOk <;>
    simp [_play_with_aplay, hA, hK]

lemma simpleaudio_nonblocking_reg (se : StratEnv) :
    (_play_with_simpleaudio se false).1 = true →
    (_play_with_simpleaudio se false).2 = [Backend.simpleaudio] := by
  cases hA : se.available <;> cases hK : se.attemptOk <;>
    simp [_play_with_simpleaudio, hA, hK]

lemma pygame_nonblocking_reg (se : StratEnv) :
    (_play_with_pygame se false).1 = true →
    (_play_with_pygame se false).2 = [Backend.pygame] := by
  cases hA : se.available <;> cases hK : se.attemptOk <;>
    simp [_play_with_pygame, hA, hK]

lemma system_nonblocking_reg : ∀ (cmds : List SysCmd),
    (_play_with_system_command cmds false).1 = true →
    (_play_with_system_command cmds false).2 = [Backend.system] := by
  intro cmds
  induction cmds with
  | nil => intro hcontra; simp [_play_with_system_command] at hcontra
  | cons c rest ih =>
    intro hs
    rw [_play_with_system_command] at hs ⊢
    by_cases h1 : (!c.isPowershell && !c.available) = true <;>
      by_cases h2 : c.attemptOk = true <;>
      simp [h1, h2] at hs ⊢ <;>
      try exact ih hs

lemma system_unavailable : ∀ (cmds : List SysCmd) (b : Bool),
    cmds.any (fun c => c.isPowershell || c.available) = false →
    (_play_with_system_command cmds b).1 = false := by
  intro cmds
  induction cmds with
  | nil => intro b _; rfl
  | cons c rest ih =>
    intro b hall
    simp only [List.any_cons, Bool.or_eq_false_iff] at hall
    obtain ⟨⟨h1, h2⟩, h3⟩ := hall
    rw [_play_with_system_command]
    simp [h1, h2, ih b h3]

lemma handleStopActs_no_kill (h : Handle) :
    ∀ a ∈ handleStopActs h, isKillAct a = false := by
  intro a ha
  unfold handleStopActs at ha
  by_cases hq : _is_handle_active h.backend h.q1 = false
  · rw [if_pos hq] at ha
    simp at ha
  · rw [if_neg hq] at ha
    revert ha
    cases h.backend <;> cases ht : h.termThrows <;>
      simp [ht, isKillAct] <;> rintro (rfl | rfl) <;> rfl

/- ------------------------------------------------------------------ -/
/- Claim theorems                                                      -/
/- ------------------------------------------------------------------ -/

/-- C1: evaluation of the code at the failing scenario.  The claim says a
handle is present in the process-wide registry for every playback started
by the controller in non-blocking mode, so that `stop_audio()` terminates
it and returns true.  The code behaves otherwise: for every file status
and every backend environment, main.py's `_play_message(blocking=False)`
adds NOTHING to the registry (its daemon thread runs `play_audio` with
`blocking=True`, and blocking strategies never call `_register_playback`),
so the later hang-up `stop_audio()` runs on an empty registry, terminates
nothing and returns `False`. -/
theorem c1_nonblocking_playback_never_registered :
    (∀ (isFile : Bool) (e : Env), _play_message_registered isFile e false = []) ∧
    stop_audio [] = (false, [], []) := by
  constructor
  · intro isFile e
    cases isFile
    · rfl
    · show _play_message_registered true e false = []
      unfold _play_message_registered play_audio
      simp [tryStrategies_blocking_nil]
  · rfl

/-- C2 counterexample: with a session active (`recActive` holds a live
subprocess), `Recorder.start` does not fail with `AlreadyRecording`; it
returns normally, launches a second capture subprocess (`spawn 2`) and
overwrites the session fields, orphaning the first subprocess. -/
theorem c2_counterexample :
    sessionActive recActive = true ∧
    Recorder.start recActive 5 2 =
      (⟨some ⟨2, true⟩, some 5, some 5⟩, [RecAct.spawn 2]) := by
  exact ⟨rfl, rfl⟩

/-- C2 amended: `Recorder.start` performs no already-recording check: even
when a session is active it launches a new capture subprocess, overwrites
the session fields (subprocess, file, start time) and never terminates the
previous subprocess. -/
theorem c2_amended_start_unconditional :
    ∀ (s : Recorder) (now newPid : Nat),
    sessionActive s = true →
    Recorder.start s now newPid =
      (⟨some ⟨newPid, true⟩, some now, some now⟩, [RecAct.spawn newPid]) := by
  intro s now newPid _
  rfl

/-- C2 witness: the amended theorem applied to a concrete active session. -/
theorem c2_witness :
    Recorder.start recActive 9 4 =
      (⟨some ⟨4, true⟩, some 9, some 9⟩, [RecAct.spawn 4]) :=
  c2_amended_start_unconditional recActive 9 4 (by decide)

/-- C3: evaluation of the code at the failing input.  The claim (and the
spec's implicit-cleanup requirement) says the shutdown path terminates the
capture subprocess regardless of how recently it started.  The code's
`finally` block calls plain `Recorder.stop`, whose minimum-duration guard
has no teardown override: one time unit after `start`, with the subprocess
alive (`recYoung`), the cleanup issues NO terminate or kill and still
drops the subprocess reference — the child is leaked. -/
theorem c3_shutdown_leaks_young_recording :
    recYoung.proc = some ⟨7, true⟩ ∧
    shutdownCleanup [] recYoung 1 false =
      ((false, [], []), (⟨none, none, none⟩, [])) := by
  exact ⟨rfl, rfl⟩

/-- C4 counterexample: with an active session below the minimum duration
(`recYoung4` at `now = 1`, elapsed not greater than 1), `Recorder.stop`
indeed performs no subprocess action, but it does NOT leave the session
state unchanged as the claim demands: it clears `proc`, `file` and
`start_time` (the subprocess reference `some ⟨3, true⟩` becomes `none`). -/
theorem c4_counterexample :
    sessionActive recYoung4 = true ∧
    recStopGuard recYoung4 1 = false ∧
    Recorder.stop recYoung4 1 false = (⟨none, none, none⟩, []) := by
  exact ⟨rfl, rfl, rfl⟩

/-- C4 amended: `Recorder.stop` always resets the three session fields to
`None`; it performs no subprocess action when no session is active, the
process has exited, or the elapsed time is not greater than the minimum
duration; and when a session is active, alive and past the minimum it
terminates the subprocess and kills it if the bounded wait times out. -/
theorem c4_amended_stop_always_clears :
    ∀ (s : Recorder) (now : Nat) (wto : Bool),
    ((Recorder.stop s now wto).1 = ⟨none, none, none⟩) ∧
    (recStopGuard s now = false → (Recorder.stop s now wto).2 = []) ∧
    (∀ (p : Proc) (t0 : Nat), s.proc = some p → s.startTime = some t0 →
      p.alive = true → now - t0 > 1 →
      (Recorder.stop s now wto).2 =
        RecAct.terminate p.pid :: (if wto then [RecAct.kill p.pid] else [])) := by
  intro s now wto
  refine ⟨rfl, ?_, ?_⟩
  · intro hg
    simp [Recorder.stop, hg]
  · intro p t0 hp ht ha hel
    have hg : recStopGuard s now = true := by
      simp [recStopGuard, hp, ht, ha, hel]
    simp [Recorder.stop, hg, hp]

/-- C4 witness: the amended theorem applied to a concrete session, both
below the minimum duration (no action) and past it (terminate then kill
after a timed-out wait). -/
theorem c4_witness :
    (Recorder.stop recActive4 5 true).1 = ⟨none, none, none⟩ ∧
    (Recorder.stop recActive4 1 false).2 = [] ∧
    (Recorder.stop recActive4 5 true).2 = [RecAct.terminate 3, RecAct.kill 3] := by
  refine ⟨(c4_amended_stop_always_clears recActive4 5 true).1,
    (c4_amended_stop_always_clears recActive4 1 false).2.1 (by decide), ?_⟩
  have h := (c4_amended_stop_always_clears recActive4 5 true).2.2
    ⟨3, true⟩ 0 rfl rfl rfl (by decide)
  simpa using h

/-- C5 counterexample: an active omxplayer handle whose process survives
`terminate()` (`hTimeout`, the bounded wait raises `TimeoutExpired`).
The claim says `stop_audio` force-kills the process on timeout; the code
instead swallows the exception: the action trace is exactly
`[terminate, wait]` — no `kill` — the handle stays in the registry and the
call returns `false`. -/
theorem c5_counterexample :
    _is_handle_active hTimeout.backend hTimeout.q1 = true ∧
    hTimeout.waitTimesOut = true ∧
    stop_audio [hTimeout] =
      (false, [hTimeout], [PAct.terminate 0, PAct.wait 0]) := by
  exact ⟨rfl, rfl, by decide⟩

/-- C5 amended: `stop_audio` issues a terminate to every active process
handle, returns true iff some handle was stopped without raising (a
timed-out wait does NOT count and is NOT followed by a kill — no branch of
the code ever calls `kill()`), is a no-op returning false on an empty or
fully inactive registry, and removes exactly the handles that no longer
report active. -/
theorem c5_amended_stop_audio_behaviour :
    ∀ (reg : List Handle),
    ((stop_audio reg).1 = reg.any handleStopped) ∧
    (stop_audio [] = (false, [], [])) ∧
    (reg.all (fun h => !(_is_handle_active h.backend h.q1)) = true →
      (stop_audio reg).1 = false) ∧
    (∀ h ∈ reg, _is_handle_active h.backend h.q1 = true →
      procBackend h.backend = true →
      PAct.terminate h.id ∈ (stop_audio reg).2.2) ∧
    ((stop_audio reg).2.2.all (fun a => !(isKillAct a)) = true) ∧
    (reg.Nodup → (stop_audio reg).2.1 = reg.filter handleRemains) := by
  intro reg
  refine ⟨stop_audio_fst reg, rfl, ?_, ?_, ?_, stop_audio_reg reg⟩
  · intro hall
    rw [stop_audio_fst]
    simp only [List.all_eq_true] at hall
    refine List.any_eq_false.mpr ?_
    intro h hh
    have hf : _is_handle_active h.backend h.q1 = false := by
      simpa using hall h hh
    simp [handleStopped, hf]
  · intro h hh hact hproc
    rw [stop_audio_acts]
    refine List.mem_flatMap.mpr ⟨h, hh, ?_⟩
    unfold handleStopActs
    rw [if_neg (by simp [hact])]
    cases hb : h.backend <;> rw [hb] at hproc <;> simp [procBackend] at hproc <;>
      cases h.termThrows <;> simp
  · rw [stop_audio_acts, List.all_eq_true]
    intro a ha
    obtain ⟨h, hh, hah⟩ := List.mem_flatMap.mp ha
    simp [handleStopActs_no_kill h a hah]

/-- C5 witness: the amended theorem applied to a concrete registry holding
one cleanly stopping aplay handle and one already-finished pygame handle. -/
theorem c5_witness :
    (stop_audio [hStopped, hVanished]).1 =
      [hStopped, hVanished].any handleStopped ∧
    (stop_audio [hVanished]).1 = false ∧
    PAct.terminate 1 ∈ (stop_audio [hStopped, hVanished]).2.2 ∧
    (stop_audio [hStopped, hVanished]).2.1 =
      [hStopped, hVanished].filter handleRemains := by
  refine ⟨(c5_amended_stop_audio_behaviour [hStopped, hVanished]).1,
    (c5_amended_stop_audio_behaviour [hVanished]).2.2.1 (by decide),
    (c5_amended_stop_audio_behaviour [hStopped, hVanished]).2.2.2.1 hStopped
      (by decide) (by decide) (by decide),
    (c5_amended_stop_audio_behaviour [hStopped, hVanished]).2.2.2.2.2 (by decide)⟩

/-- C6 counterexample: with playsound importable and working (`envAll`),
the playsound strategy invoked with `blocking=false` succeeds yet registers
nothing in the process-wide registry (the source spawns an unregistered
daemon thread: "playsound offers no stop mechanism, so we cannot register
it") — refuting the claim that every succeeding non-blocking strategy
registers its handle before `play_audio` returns. -/
theorem c6_counterexample :
    envAll.playsound = ⟨true, true⟩ ∧
    runStrategy envAll StratId.playsound false = (true, []) := by
  exact ⟨rfl, rfl⟩

/-- C6 amended: every blocking strategy invocation registers nothing (it
runs playback to completion before returning); every non-blocking
invocation that succeeds registers exactly its one handle — EXCEPT
playsound, which succeeds without registering anything (it has no
cancellable handle). -/
theorem c6_amended_registration :
    ∀ (e : Env) (s : StratId),
    ((runStrategy e s true).2 = []) ∧
    (s = StratId.playsound → (runStrategy e s false).2 = []) ∧
    (s ≠ StratId.playsound → (runStrategy e s false).1 = true →
      (runStrategy e s false).2 = [backendOf s]) := by
  intro e s
  refine ⟨runStrategy_blocking_nil e s, ?_, ?_⟩
  · rintro rfl
    exact playsound_nil e.playsound false
  · intro hne hsucc
    cases s
    case omxplayer => exact omx_nonblocking_reg e.omxplayer hsucc
    case aplay => exact aplay_nonblocking_reg e.aplay hsucc
    case simpleaudio => exact simpleaudio_nonblocking_reg e.simpleaudio hsucc
    case pygame => exact pygame_nonblocking_reg e.pygame hsucc
    case playsound => exact absurd rfl hne
    case system => exact system_nonblocking_reg e.sysCmds hsucc

/-- C6 witness: the amended theorem applied to the all-available
environment, for a blocking call, the playsound exception and a
succeeding non-blocking aplay call. -/
theorem c6_witness :
    (runStrategy envAll StratId.omxplayer true).2 = [] ∧
    (runStrategy envAll StratId.playsound false).2 = [] ∧
    (runStrategy envAll StratId.aplay false).2 = [backendOf StratId.aplay] := by
  exact ⟨(c6_amended_registration envAll StratId.omxplayer).1,
    (c6_amended_registration envAll StratId.playsound).2.1 rfl,
    (c6_amended_registration envAll StratId.aplay).2.2 (by decide) (by decide)⟩

/-- C7: for every controller state and pin/thread input, a tick of either
poll loop (main.py and the announce-only happened_today.py variant) either
leaves the state unchanged with no action, or performs exactly one of the
documented transitions: Idle -> Playing on the trigger (rising) edge
issuing the playback, Playing -> Idle on the opposite (falling) edge via
`stop_audio`, Playing -> Recording on playback-thread completion via
`Recorder.start` (main.py only), Recording -> Idle on the falling edge via
`Recorder.stop` (main.py only).  Visited states are in
{Idle, Playing, Recording} by construction of `CState`. -/
theorem c7_transitions_documented :
    ∀ (s : LoopState) (level alive : Bool),
    (((tick s level alive).1.cstate = s.cstate ∧ (tick s level alive).2 = []) ∨
     (s.cstate = CState.idle ∧ risingEdge s.lastLevel level = true ∧
       (tick s level alive).1.cstate = CState.playing ∧
       (tick s level alive).2 = [CAct.playMessage]) ∨
     (s.cstate = CState.playing ∧ fallingEdge s.lastLevel level = true ∧
       (tick s level alive).1.cstate = CState.idle ∧
       (tick s level alive).2 = [CAct.stopAudio]) ∨
     (s.cstate = CState.playing ∧ fallingEdge s.lastLevel level = false ∧
       alive = false ∧ (tick s level alive).1.cstate = CState.recording ∧
       (tick s level alive).2 = [CAct.recStart]) ∨
     (s.cstate = CState.recording ∧ fallingEdge s.lastLevel level = true ∧
       (tick s level alive).1.cstate = CState.idle ∧
       (tick s level alive).2 = [CAct.recStop])) ∧
    (((tickAnnounce s level).1.cstate = s.cstate ∧ (tickAnnounce s level).2 = []) ∨
     (s.cstate = CState.idle ∧ risingEdge s.lastLevel level = true ∧
       (tickAnnounce s level).1.cstate = CState.playing ∧
       (tickAnnounce s level).2 = [CAct.playMessage]) ∨
     (s.cstate = CState.playing ∧ fallingEdge s.lastLevel level = true ∧
       (tickAnnounce s level).1.cstate = CState.idle ∧
       (tickAnnounce s level).2 = [CAct.stopAudio])) := by
  decide

/-- C8: in any state reachable from start-up, (1) when the controller is
Playing and a falling (hang-up) edge is observed, the tick resolves to
Idle with exactly a `stop_audio` call — `Recorder.start` is not issued in
that tick even if the playback thread has also completed; (2) whenever a
tick enters Recording, the playback thread had completed (`alive = false`)
and the line is still at its off-hook level (`level = true`). -/
theorem c8_hangup_priority :
    ∀ (initLevel : Bool) (inputs : List (Bool × Bool)) (level alive : Bool),
    ((runLoop (initState initLevel) inputs).cstate = CState.playing →
      fallingEdge (runLoop (initState initLevel) inputs).lastLevel level = true →
      tick (runLoop (initState initLevel) inputs) level alive =
        (⟨CState.idle, level, (runLoop (initState initLevel) inputs).msgThread⟩,
          [CAct.stopAudio])) ∧
    ((tick (runLoop (initState initLevel) inputs) level alive).1.cstate =
        CState.recording →
      (runLoop (initState initLevel) inputs).cstate ≠ CState.recording →
      level = true ∧ alive = false) := by
  intro initLevel inputs level alive
  have hinv : (runLoop (initState initLevel) inputs).cstate = CState.playing →
      (runLoop (initState initLevel) inputs).lastLevel = true :=
    runLoop_playing_inv inputs (initState initLevel)
      (by intro h; simp [initState] at h)
  refine ⟨?_, ?_⟩
  · intro hp hf
    exact tick_hangup_wins _ level alive hp hf
  · intro hrec hne
    rcases tick_recording_entry _ level alive hinv hrec with h | h
    · exact absurd h hne
    · exact h

/-- C8 witness: the theorem applied after the trace `initial level low,
one tick with level high` (the controller is then Playing with the line
high): a hang-up tick resolves to Idle with only `stop_audio`, and a
completion tick that enters Recording had `level = true, alive = false`. -/
theorem c8_witness :
    tick (runLoop (initState false) [(true, true)]) false false =
      (⟨CState.idle, false,
        (runLoop (initState false) [(true, true)]).msgThread⟩,
        [CAct.stopAudio]) ∧
    (true = true ∧ false = false) := by
  exact ⟨(c8_hangup_priority false [(true, true)] false false).1
      (by decide) (by decide),
    (c8_hangup_priority false [(true, true)] true false).2
      (by decide) (by decide)⟩

/-- C9: `play_audio` fails with `FileNotFound` for every non-file path; on
an existing file it runs the fixed, platform-dependent strategy order;
an unavailable strategy fails (refusal advances the chain, as does a
thrown attempt, both being `success = false`); the first succeeding
strategy ends the chain with overall success and only its registration;
and the overall result is the failure report iff every strategy failed. -/
theorem c9_play_audio_fallback :
    ∀ (e : Env) (blocking : Bool),
    (play_audio false e blocking = Except.error PlayErr.fileNotFound) ∧
    (play_audio true e blocking =
      Except.ok (tryStrategies e blocking (strategyOrder e.isPi))) ∧
    (∀ s : StratId, stratAvailable e s = false →
      stratSucceeds e blocking s = false) ∧
    (∀ (pre : List StratId) (s : StratId) (post : List StratId),
      (∀ x ∈ pre, stratSucceeds e blocking x = false) →
      stratSucceeds e blocking s = true →
      tryStrategies e blocking (pre ++ s :: post) =
        (true, (runStrategy e s blocking).2)) ∧
    (∀ l : List StratId,
      ((tryStrategies e blocking l).1 = false ↔
        ∀ x ∈ l, stratSucceeds e blocking x = false)) := by
  intro e blocking
  refine ⟨rfl, rfl, ?_, tryStrategies_first_success e blocking,
    tryStrategies_fst_false_iff e blocking⟩
  intro s hs
  cases s <;> simp only [stratAvailable] at hs <;>
    simp only [stratSucceeds, runStrategy]
  case omxplayer => simp [_play_with_omxplayer, hs]
  case aplay => simp [_play_with_aplay, hs]
  case simpleaudio => simp [_play_with_simpleaudio, hs]
  case pygame => simp [_play_with_pygame, hs]
  case playsound => simp [_play_with_playsound, hs]
  case system => exact system_unavailable e.sysCmds blocking hs

/-- C9 witness: the theorem applied to `envMixed`: missing file rejected;
the unavailable omxplayer refuses; the chain skips it and stops at the
succeeding aplay strategy; a chain of only failing strategies reports
overall failure. -/
theorem c9_witness :
    play_audio false envMixed false = Except.error PlayErr.fileNotFound ∧
    stratSucceeds envMixed false StratId.omxplayer = false ∧
    tryStrategies envMixed false
        ([StratId.omxplayer] ++ StratId.aplay :: [StratId.simpleaudio]) =
      (true, (runStrategy envMixed StratId.aplay false).2) ∧
    (tryStrategies envMixed false [StratId.omxplayer]).1 = false := by
  refine ⟨(c9_play_audio_fallback envMixed false).1,
    (c9_play_audio_fallback envMixed false).2.2.1 StratId.omxplayer (by decide),
    (c9_play_audio_fallback envMixed false).2.2.2.1 [StratId.omxplayer]
      StratId.aplay [StratId.simpleaudio] (by decide) (by decide),
    ((c9_play_audio_fallback envMixed false).2.2.2.2 [StratId.omxplayer]).mpr
      (by decide)⟩

/-- C10: `stop_audio` is total over every registry and every handle
behaviour: a liveness query that raises makes `_is_handle_active` report
inactive rather than propagate; the returned flag and the full action
trace are computed over EVERY registry entry (the trace is the
concatenation of each handle's own actions), so a handle whose terminate
raises does not stop the remaining handles from being processed. -/
theorem c10_stop_audio_total :
    (∀ b : Backend, _is_handle_active b QRes.throws = false) ∧
    (∀ reg : List Handle,
      (stop_audio reg).1 = reg.any handleStopped ∧
      (stop_audio reg).2.2 = reg.flatMap handleStopActs) ∧
    (∀ (pre post : List Handle) (h : Handle), h.termThrows = true →
      (stop_audio (pre ++ h :: post)).2.2 =
        pre.flatMap handleStopActs ++
          (handleStopActs h ++ post.flatMap handleStopActs)) := by
  refine ⟨?_, ?_, ?_⟩
  · intro b; cases b <;> rfl
  · intro reg; exact ⟨stop_audio_fst reg, stop_audio_acts reg⟩
  · intro pre post h _
    rw [stop_audio_acts]
    simp [List.flatMap_append, List.flatMap_cons]

/-- C10 witness: the theorem applied to a registry whose middle handle's
`stop()` raises: the surrounding handles are still processed. -/
theorem c10_witness :
    (stop_audio ([hStopped] ++ hThrower :: [hVanished])).2.2 =
      [hStopped].flatMap handleStopActs ++
        (handleStopActs hThrower ++ [hVanished].flatMap handleStopActs) :=
  c10_stop_audio_total.2.2 [hStopped] [hVanished] hThrower rfl
